import Mathlib

/-!
Verification of `main.cpp` of the Radeon_HD_glDrawBuffers_demo repository.

The C++ program is a straight-line OpenGL smoke test: it builds two shader
programs, one vertex buffer, one framebuffer with two color attachments, and
then runs a frame loop (pass A renders a half-scale blue quad into color
attachment 1 of the offscreen framebuffer; pass B samples that attachment onto
the visible window).  This file shallowly embeds the program: pure helpers of
the source become Lean functions, the GL driver is an explicit environment of
responses, and the stateful frame loop becomes a step function on an explicit
GL state together with a trace of the API calls the program issues.
-/

namespace GLDemo

/-! ## Definitions

### compileShader's line splitting (main.cpp lines 48-70)

`compileShader` counts the newline characters of the source, then walks the
source once, recording for every newline a pair (pointer to the start of the
line, length of the line).  A C pointer into the buffer is modelled as the
suffix of the character list that begins at the pointed-to position.
-/

/-- main.cpp lines 50-51: `for (const auto c : source) linesCount += (c == '\n');`. -/
def linesCount (source : List Char) : Nat := source.count '\n'

/-- main.cpp lines 55-68: the splitting loop.  `lineStart` is the suffix of the
source at the current line's first character, `lineLength` the running length
counter (initialised to 1, i.e. it already counts the newline that will
terminate the line).  On a newline the pair is recorded and both are reset. -/
def splitLinesAux : List Char → List Char → Nat → List (List Char × Nat)
  | [], _, _ => []
  | c :: rest, lineStart, lineLength =>
    if c = '\n' then (lineStart, lineLength) :: splitLinesAux rest rest 1
    else splitLinesAux rest lineStart (lineLength + 1)

/-- The recorded (line start, line length) entries for a whole source:
main.cpp starts with `lineStart = source.data()` and `lineLength = 1`. -/
def splitLines (source : List Char) : List (List Char × Nat) :=
  splitLinesAux source source 1

/-- The text of one recorded entry: the driver reads `length` bytes from the
recorded start pointer (main.cpp line 70, `glShaderSource`). -/
def lineText (e : List Char × Nat) : List Char := e.1.take e.2

/-- All line texts handed to the driver by `glShaderSource` (main.cpp line 70). -/
def submittedLines (source : List Char) : List (List Char) :=
  (splitLines source).map lineText

/-- The prefix of a character list up to and including its last newline
(empty when there is no newline). -/
def upToLastNL : List Char → List Char
  | [] => []
  | c :: rest =>
    if rest.count '\n' = 0 then (if c = '\n' then [c] else [])
    else c :: upToLastNL rest

/-- The characters strictly after the last newline (the whole list when there
is no newline). -/
def afterLastNL : List Char → List Char
  | [] => []
  | c :: rest =>
    if rest.count '\n' = 0 then (if c = '\n' then rest else c :: rest)
    else afterLastNL rest

/-- A shader source with text after its last newline, used to probe the
splitter on sources that do not end in a newline. -/
def srcTrailing : List Char := ['a', 'b', '\n', 'c', 'd']

/-- A shader source that ends in a newline, like all four embedded sources. -/
def srcTerminated : List Char := ['a', 'b', '\n']

/-- A non-empty source with no newline at all. -/
def srcNoNewline : List Char := ['x']

/-!
### GL error helper (main.cpp lines 9-46)

The driver's pending errors are modelled as a queue (list) of error codes;
`glGetError` pops the oldest one or reports `GL_NO_ERROR` on an empty queue.
-/

def GL_NO_ERROR : Nat := 0
def GL_INVALID_ENUM : Nat := 1280
def GL_INVALID_VALUE : Nat := 1281
def GL_INVALID_OPERATION : Nat := 1282
def GL_STACK_OVERFLOW : Nat := 1283
def GL_STACK_UNDERFLOW : Nat := 1284
def GL_OUT_OF_MEMORY : Nat := 1285
def GL_INVALID_FRAMEBUFFER_OPERATION : Nat := 1286

/-- One `glGetError` call: (returned code, remaining queue). -/
def glGetError : List Nat → Nat × List Nat
  | [] => (GL_NO_ERROR, [])
  | e :: rest => (e, rest)

/-- main.cpp lines 9-25: the switch over error codes. -/
def getErrorDescr (errCode : Nat) : String :=
  if errCode = GL_NO_ERROR then "No error has been recorded. THIS message is the error itself."
  else if errCode = GL_INVALID_ENUM then "An unacceptable value is specified for an enumerated argument."
  else if errCode = GL_INVALID_VALUE then "A numeric argument is out of range."
  else if errCode = GL_INVALID_OPERATION then "The specified operation is not allowed in the current state."
  else if errCode = GL_INVALID_FRAMEBUFFER_OPERATION then "The framebuffer object is not complete."
  else if errCode = GL_OUT_OF_MEMORY then "There is not enough memory left to execute the command."
  else if errCode = GL_STACK_UNDERFLOW then "An attempt has been made to perform an operation that would cause an internal stack to underflow."
  else if errCode = GL_STACK_OVERFLOW then "An attempt has been made to perform an operation that would cause an internal stack to overflow."
  else "No description available."

/-- main.cpp lines 27-38: calls `glGetError` once; returns the empty string if
no error was pending, else a two-line description of the one popped code. -/
def getErrorMessage (q : List Nat) : String × List Nat :=
  let r := glGetError q
  if r.1 = GL_NO_ERROR then ("", r.2)
  else ("OpenGL error: " ++ toString r.1 ++ "\n" ++ "Error string: " ++
          getErrorDescr r.1 ++ "\n", r.2)

/-- main.cpp lines 40-46: prints the message (if any) to stderr and reports
whether there was one. -/
def error (q : List Nat) : Bool × List Nat :=
  let m := getErrorMessage q
  (decide (m.1.length ≠ 0), m.2)

/-!
### createProgram (main.cpp lines 89-142)

The GL driver's responses to the calls `createProgram` makes for one
vertex/fragment pair: the two `glCreateShader` handles, the two compile
statuses, the `glCreateProgram` handle and the link status.
-/

structure Driver where
  vsHandle : Nat
  fsHandle : Nat
  vsCompileOk : Bool
  fsCompileOk : Bool
  programHandle : Nat
  linkOk : Bool
deriving DecidableEq

/-- main.cpp lines 89-142: the result value of `createProgram` (its GL calls'
outcomes are supplied by `d`; the submission of the shader text itself is the
`submittedLines` model above).  The failure messages go to stderr and are not
part of the returned value. -/
def createProgram (d : Driver) : Nat :=
  if d.vsHandle = 0 then 2
  else if d.fsHandle = 0 then 2
  else if d.vsCompileOk = false then 5
  else if d.fsCompileOk = false then 5
  else if d.programHandle = 0 then 2
  else if d.linkOk = false then 2
  else d.programHandle

/-- The early-return path of main.cpp lines 91-100 and 113-117: a shader or
program handle resolved to 0 (later checks are reached only when the earlier
ones passed). -/
def handleZeroFailure (d : Driver) : Prop :=
  d.vsHandle = 0 ∨ (d.vsHandle ≠ 0 ∧ d.fsHandle = 0) ∨
    (d.vsHandle ≠ 0 ∧ d.fsHandle ≠ 0 ∧ d.vsCompileOk = true ∧
      d.fsCompileOk = true ∧ d.programHandle = 0)

/-- The early-return path of main.cpp lines 103-110: a compile status was false. -/
def compileFailure (d : Driver) : Prop :=
  d.vsHandle ≠ 0 ∧ d.fsHandle ≠ 0 ∧
    (d.vsCompileOk = false ∨ (d.vsCompileOk = true ∧ d.fsCompileOk = false))

/-- The early-return path of main.cpp lines 133-138: the link status was false. -/
def linkFailure (d : Driver) : Prop :=
  d.vsHandle ≠ 0 ∧ d.fsHandle ≠ 0 ∧ d.vsCompileOk = true ∧
    d.fsCompileOk = true ∧ d.programHandle ≠ 0 ∧ d.linkOk = false

/-- Any failure path of `createProgram`. -/
def buildFailure (d : Driver) : Prop :=
  handleZeroFailure d ∨ compileFailure d ∨ linkFailure d

instance (d : Driver) : Decidable (handleZeroFailure d) := by
  unfold handleZeroFailure; infer_instance

instance (d : Driver) : Decidable (compileFailure d) := by
  unfold compileFailure; infer_instance

instance (d : Driver) : Decidable (linkFailure d) := by
  unfold linkFailure; infer_instance

instance (d : Driver) : Decidable (buildFailure d) := by
  unfold buildFailure; infer_instance

def okDriver : Driver := ⟨11, 12, true, true, 7, true⟩
def okDriverB : Driver := ⟨13, 14, true, true, 8, true⟩
def compileFailDriver : Driver := ⟨11, 12, false, true, 7, true⟩
def linkFailDriver : Driver := ⟨11, 12, true, true, 7, false⟩
def zeroProgDriver : Driver := ⟨11, 12, true, true, 0, true⟩

/-- A fully successful driver whose allocated program handle happens to be 5,
the same value `createProgram` returns for a compile failure. -/
def ambiguousOkDriver : Driver := ⟨11, 12, true, true, 5, true⟩

/-!
### The frame loop (main.cpp lines 198-306)

GL colors are exact here: the shaders only ever produce the literals 0.0 and
1.0, so components are rationals.  An image maps a normalized-device
coordinate to its color, `none` standing for undefined contents
(`glTexImage2D` with a null pointer).  The calls the program issues are
recorded as a trace.
-/

structure Color where
  r : ℚ
  g : ℚ
  b : ℚ
  a : ℚ
deriving DecidableEq

/-- main.cpp line 273: `glClearColor(0.0f, 0.0f, 0.0f, 1.0f)` — opaque black. -/
def setupClearColor : Color := ⟨0, 0, 0, 1⟩

/-- `quad1FragSource` (main.cpp lines 157-166) writes
`vec4(vec3(0.0, 0.0, 1.0), 1.0)` — opaque blue — to output location 1. -/
def passAColor : Color := ⟨0, 0, 1, 1⟩

abbrev Image : Type := ℚ × ℚ → Option Color

/-- A draw-buffer slot value: `GL_NONE`, `GL_COLOR_ATTACHMENT<n>`, or the
default framebuffer's back buffer. -/
inductive DrawBuf where
  | glNone : DrawBuf
  | colorAttachment : Nat → DrawBuf
  | backBuffer : DrawBuf
deriving DecidableEq

/-- main.cpp line 269: `static const GLenum att1[] = { GL_NONE, GL_COLOR_ATTACHMENT1 };` -/
def att1 : List DrawBuf := [DrawBuf.glNone, DrawBuf.colorAttachment 1]

/-- main.cpp lines 238-245: the vertex buffer, 6 two-component vertices
forming two triangles that tile the square [-1,1]×[-1,1]. -/
def fullscreenQuad : List (ℚ × ℚ) :=
  [(-1, -1), (1, -1), (1, 1), (-1, -1), (1, 1), (-1, 1)]

/-- The normalized-device-coordinate region covered by the fullscreen quad
after the vertex shader scales it by `scale`: the two triangles of
`fullscreenQuad` tile the axis-aligned square of half-width `scale`. -/
def inQuad (scale : ℚ) (p : ℚ × ℚ) : Bool :=
  decide (-scale ≤ p.1 ∧ p.1 ≤ scale ∧ -scale ≤ p.2 ∧ p.2 ≤ scale)

/-- `quadVertSource` (main.cpp lines 144-155): `const float scale = 0.5;`
and `gl_Position = vec4(v * scale, 0.0, 1.0)`.  (Written in lowest terms so
that the kernel can evaluate comparisons against it.) -/
def passAScale : ℚ := Rat.mk' 1 2

/-- `texVertSource` (main.cpp lines 168-180) emits the vertices unscaled. -/
def passBScale : ℚ := 1

/-- One API call of the program, as recorded in the trace. -/
inductive GLCall where
  | setWindowShouldClose : GLCall
  | bindFramebuffer : Nat → GLCall
  | clear : GLCall
  | useProgram : Nat → GLCall
  | drawBuffers : List DrawBuf → GLCall
  | drawArrays : Nat → GLCall
  | activeTexture : Nat → GLCall
  | bindTexture : Nat → GLCall
  | swapBuffers : GLCall
  | pollEvents : GLCall
  | assertNoGLError : GLCall
  | printOut : String → GLCall
  | printErr : String → GLCall
  | deleteProgram : Nat → GLCall
  | makeContextCurrentNull : GLCall
  | destroyWindow : GLCall
  | terminate : GLCall
deriving DecidableEq

/-- The object handles the loop works with: the framebuffer and the two
textures allocated during setup, and the two values `createProgram` returned
(main.cpp lines 227-228 store them without any check). -/
structure Env where
  fb : Nat
  tex0 : Nat
  tex1 : Nat
  progA : Nat
  progB : Nat
deriving DecidableEq

/-- The mutable GL/GLFW state the loop touches.  `fbDrawBuffers` is the
draw-buffer state of the one offscreen framebuffer object (it is
framebuffer-object state in GL, so it persists across iterations);
`att0Tex`/`att1Tex` are the contents of the textures bound to color
attachments 0 and 1 (main.cpp lines 251-266), `screen` the window's back
buffer. -/
structure GLState where
  shouldClose : Bool
  curFB : Nat
  curProgram : Nat
  boundTexture : Nat
  fbDrawBuffers : List DrawBuf
  clearCol : Color
  att0Tex : Image
  att1Tex : Image
  screen : Image

/-- What one loop iteration observes from the outside world: whether the
escape key is down at the key poll (main.cpp line 279) and whether
`glfwPollEvents` (line 296) delivers a window-close request. -/
structure FrameInput where
  escapePressed : Bool
  externalClose : Bool
deriving DecidableEq

def quietInput : FrameInput := ⟨false, false⟩

def escInput : FrameInput := ⟨true, false⟩

/-- An iteration input with no key press and no window-close request. -/
def quiet (i : FrameInput) : Prop :=
  i.escapePressed = false ∧ i.externalClose = false

/-- The target a fragment-output location / draw-buffer slot maps to: slot `i`
of the bound framebuffer's draw-buffer state, or the back buffer for slot 0 of
the default framebuffer. -/
def slotTarget (env : Env) (s : GLState) (slot : Nat) : DrawBuf :=
  if s.curFB = env.fb then s.fbDrawBuffers.getD slot DrawBuf.glNone
  else if slot = 0 then DrawBuf.backBuffer else DrawBuf.glNone

/-- Sampling texture unit 0 (`texFragSource`'s sampler has location 0 and the
loop binds to unit 0, main.cpp lines 289-290). -/
def sampleUnit0 (env : Env) (s : GLState) (p : ℚ × ℚ) : Option Color :=
  if s.boundTexture = env.tex0 then s.att0Tex p
  else if s.boundTexture = env.tex1 then s.att1Tex p
  else none

/-- Effect of `glClear(GL_COLOR_BUFFER_BIT)` (main.cpp line 282) on the image
attached to `target`: the whole image becomes the clear color when `target`
is among the bound framebuffer's draw buffers (resp. is the back buffer when
the default framebuffer is bound). -/
def clearWrites (env : Env) (s : GLState) (target : DrawBuf) (old : Image) : Image :=
  if (s.curFB = env.fb ∧ target ∈ s.fbDrawBuffers) ∨
      (¬ s.curFB = env.fb ∧ target = DrawBuf.backBuffer) then
    fun _ => some s.clearCol
  else old

/-- Effect of `glDrawArrays(GL_TRIANGLES, 0, 6)` (main.cpp lines 285, 291) on
the image attached to `target`.  Program A covers the half-scale quad and
writes `passAColor` through fragment-output location 1 (its only output);
program B covers the full quad and writes `vec4(texture(tex, texCoord).rgb,
1.0)` through location 0.  A location writes only to the target its
draw-buffer slot maps to. -/
def drawWrites (env : Env) (s : GLState) (target : DrawBuf) (old : Image) : Image :=
  if s.curProgram = env.progA then
    (if slotTarget env s 1 = target then
      fun p => if inQuad passAScale p then some passAColor else old p
    else old)
  else if s.curProgram = env.progB then
    (if slotTarget env s 0 = target then
      fun p =>
        if inQuad passBScale p then
          (match sampleUnit0 env s p with
            | some c => some ⟨c.r, c.g, c.b, 1⟩
            | none => none)
        else old p
    else old)
  else old

/-- The state effect of each call. -/
def applyCall (env : Env) (inp : FrameInput) (s : GLState) : GLCall → GLState
  | GLCall.setWindowShouldClose => { s with shouldClose := true }
  | GLCall.bindFramebuffer f => { s with curFB := f }
  | GLCall.clear =>
    { s with
      att0Tex := clearWrites env s (DrawBuf.colorAttachment 0) s.att0Tex
      att1Tex := clearWrites env s (DrawBuf.colorAttachment 1) s.att1Tex
      screen := clearWrites env s DrawBuf.backBuffer s.screen }
  | GLCall.useProgram p => { s with curProgram := p }
  | GLCall.drawBuffers bufs =>
    { s with fbDrawBuffers := if s.curFB = env.fb then bufs else s.fbDrawBuffers }
  | GLCall.drawArrays _n =>
    { s with
      att0Tex := drawWrites env s (DrawBuf.colorAttachment 0) s.att0Tex
      att1Tex := drawWrites env s (DrawBuf.colorAttachment 1) s.att1Tex
      screen := drawWrites env s DrawBuf.backBuffer s.screen }
  | GLCall.activeTexture _u => s
  | GLCall.bindTexture t => { s with boundTexture := t }
  | GLCall.pollEvents => { s with shouldClose := s.shouldClose || inp.externalClose }
  | _ => s

/-- main.cpp line 279: the key poll; a pressed escape key requests the close. -/
def keyPollCalls (inp : FrameInput) : List GLCall :=
  if inp.escapePressed then [GLCall.setWindowShouldClose] else []

/-- main.cpp lines 281-296: the fixed call sequence of one loop iteration
after the key poll — pass A, pass B, present, poll. -/
def bodyCalls (env : Env) : List GLCall :=
  [GLCall.bindFramebuffer env.fb, GLCall.clear, GLCall.useProgram env.progA,
    GLCall.drawBuffers att1, GLCall.drawArrays 6,
    GLCall.bindFramebuffer 0, GLCall.useProgram env.progB,
    GLCall.activeTexture 0, GLCall.bindTexture env.tex1, GLCall.drawArrays 6,
    GLCall.bindTexture 0, GLCall.swapBuffers, GLCall.pollEvents]

/-- All calls of one loop iteration. -/
def frameCalls (env : Env) (inp : FrameInput) : List GLCall :=
  keyPollCalls inp ++ bodyCalls env

/-- The state after one loop iteration. -/
def frameStep (env : Env) (inp : FrameInput) (s : GLState) : GLState :=
  (frameCalls env inp).foldl (applyCall env inp) s

/-- main.cpp lines 278-297: the while loop.  Each list element is the input
one iteration observes; the loop condition is checked before every body.  The
result is the final state and the trace of all calls issued. -/
def runFrames (env : Env) : GLState → List FrameInput → GLState × List GLCall
  | s, [] => (s, [])
  | s, inp :: rest =>
    if s.shouldClose then (s, [])
    else
      let s1 := frameStep env inp s
      let r := runFrames env s1 rest
      (r.1, frameCalls env inp ++ r.2)

/-- The GL/GLFW state right before the loop (main.cpp lines 230-277):
a fresh window does not have the close flag set; no framebuffer, program or
texture is bound (lines 261, 268); a new framebuffer object's draw-buffer
state is `GL_COLOR_ATTACHMENT0` for slot 0; the clear color was set to opaque
black (line 273); both textures were allocated with undefined contents
(lines 254, 258, null data pointer). -/
def initState : GLState where
  shouldClose := false
  curFB := 0
  curProgram := 0
  boundTexture := 0
  fbDrawBuffers := [DrawBuf.colorAttachment 0]
  clearCol := setupClearColor
  att0Tex := fun _ => none
  att1Tex := fun _ => none
  screen := fun _ => none

/-- The environment outcomes `main` observes during setup: whether `glfwInit`,
window creation and `glewInit` succeed, the drivers' responses for the two
`createProgram` calls, and the handles allocated for the framebuffer and the
two textures. -/
structure InitEnv where
  glfwInitOk : Bool
  windowOk : Bool
  glewInitOk : Bool
  drvA : Driver
  drvB : Driver
  fb : Nat
  tex0 : Nat
  tex1 : Nat
deriving DecidableEq

/-- The loop's handles: main.cpp lines 227-228 store whatever `createProgram`
returned, without any check. -/
def loopEnv (e : InitEnv) : Env :=
  { fb := e.fb, tex0 := e.tex0, tex1 := e.tex1,
    progA := createProgram e.drvA, progB := createProgram e.drvB }

/-- main.cpp lines 299-305: the shutdown sequence. -/
def shutdownCalls (progA : Nat) : List GLCall :=
  [GLCall.printOut "Finishing...", GLCall.deleteProgram progA,
    GLCall.makeContextCurrentNull, GLCall.destroyWindow, GLCall.terminate]

/-- main.cpp lines 198-306: the whole process.  Returns
`some (exit code, trace)` when the process terminates under the supplied
per-iteration inputs, and `none` when the inputs run out with the loop still
running (the real process would still be looping). The `assert(!error())` of
line 277 sits between setup and the loop. -/
def mainRun (e : InitEnv) (inputs : List FrameInput) : Option (Nat × List GLCall) :=
  if e.glfwInitOk = false then
    some (3, [GLCall.printErr "Error: glfw init failed."])
  else if e.windowOk = false then
    some (1, [GLCall.printErr "Error: window is null.", GLCall.terminate])
  else if e.glewInitOk = false then
    some (2, [GLCall.printErr "Error: glew not OK.", GLCall.terminate])
  else
    let r := runFrames (loopEnv e) initState inputs
    if r.1.shouldClose then
      some (0, GLCall.assertNoGLError :: r.2 ++ shutdownCalls (createProgram e.drvA))
    else none

/-- A fully healthy environment with concrete handles. -/
def okEnv : InitEnv := ⟨true, true, true, okDriver, okDriverB, 3, 1, 2⟩

/-- Healthy windowing environment whose vertex shader for program A fails to
compile. -/
def compileFailEnv : InitEnv := ⟨true, true, true, compileFailDriver, okDriverB, 3, 1, 2⟩

/-- The steady (second frame onwards) content of attachment 1: the pass-A
fragment color on the half-scale quad, the clear color everywhere else. -/
def att1Steady : Image := fun p =>
  if inQuad passAScale p then some passAColor else some setupClearColor

/-- The steady content of the window's back buffer: pass B repeats attachment
1 inside the full quad (its shader forces alpha to 1, which both colors
already have); outside the viewport quad the back buffer is never written. -/
def screenSteady : Image := fun p =>
  if inQuad passBScale p then
    (if inQuad passAScale p then some passAColor else some setupClearColor)
  else none

/-- The loop-state invariant that holds from the second quiet frame onwards. -/
def steadyInv (env : Env) (s : GLState) : Prop :=
  s.shouldClose = false ∧ s.clearCol = setupClearColor ∧
    s.fbDrawBuffers = att1 ∧ (∀ p, s.att1Tex p = att1Steady p) ∧
    (∀ p, s.screen p = screenSteady p)

/-- A sample point inside the viewport but outside the half-scale quad. -/
def sampleOutsidePoint : ℚ × ℚ := (Rat.mk' 3 4, Rat.mk' 3 4)

end GLDemo

namespace GLDemo

/-! ## Theorems -/

theorem lineText_pair (ls : List Char) (n : Nat) : lineText (ls, n) = ls.take n := rfl

theorem upToLastNL_append_afterLastNL (s : List Char) :
    upToLastNL s ++ afterLastNL s = s := by
  induction s with
  | nil => rfl
  | cons c rest ih =>
    by_cases h0 : rest.count '\n' = 0
    · by_cases hc : c = '\n' <;> simp [upToLastNL, afterLastNL, h0, hc]
    · simp [upToLastNL, afterLastNL, h0, ih]

theorem afterLastNL_count (s : List Char) : (afterLastNL s).count '\n' = 0 := by
  induction s with
  | nil => rfl
  | cons c rest ih =>
    by_cases h0 : rest.count '\n' = 0
    · by_cases hc : c = '\n' <;>
        simp [afterLastNL, h0, hc, List.count_cons]
    · simp [afterLastNL, h0, ih]

theorem upToLastNL_of_no_newline (s : List Char) (h : s.count '\n' = 0) :
    upToLastNL s = [] := by
  induction s with
  | nil => rfl
  | cons c rest ih =>
    have hc : ¬ c = '\n' := by
      intro hc
      simp [List.count_cons, hc] at h
    have h0 : rest.count '\n' = 0 := by
      simp [List.count_cons, hc] at h
      simpa using h
    simp [upToLastNL, h0, hc]

theorem splitLinesAux_length (cur : List Char) :
    ∀ ls ll, (splitLinesAux cur ls ll).length = cur.count '\n' := by
  induction cur with
  | nil => intro ls ll; rfl
  | cons c rest ih =>
    intro ls ll
    by_cases hc : c = '\n' <;> simp [splitLinesAux, hc, ih, List.count_cons]

theorem take_length_succ_append (pre : List Char) (c : Char) (rest : List Char) :
    (pre ++ c :: rest).take (pre.length + 1) = pre ++ [c] := by
  induction pre with
  | nil => simp
  | cons a pre ih =>
    simp only [List.cons_append, List.length_cons, List.take_succ_cons, ih]

theorem splitLinesAux_join (cur : List Char) :
    ∀ pre : List Char,
      ((splitLinesAux cur (pre ++ cur) (pre.length + 1)).map lineText).flatten
        = if cur.count '\n' = 0 then [] else pre ++ upToLastNL cur := by
  induction cur with
  | nil => intro pre; simp [splitLinesAux]
  | cons c rest ih =>
    intro pre
    by_cases hc : c = '\n'
    · subst hc
      have ihnil := ih []
      simp only [List.nil_append, List.length_nil, Nat.zero_add] at ihnil
      rw [splitLinesAux, if_pos rfl]
      simp only [List.map_cons, List.flatten_cons, lineText_pair,
        take_length_succ_append, ihnil]
      by_cases h0 : rest.count '\n' = 0
      · simp [h0, upToLastNL, List.count_cons]
      · simp [h0, upToLastNL, List.count_cons]
    · have ihc := ih (pre ++ [c])
      rw [splitLinesAux, if_neg hc]
      have hrw : pre ++ c :: rest = (pre ++ [c]) ++ rest := by simp
      have hlen : pre.length + 1 + 1 = (pre ++ [c]).length + 1 := by simp
      rw [hrw, hlen, ihc]
      by_cases h0 : rest.count '\n' = 0
      · simp [h0, List.count_cons, hc]
      · simp [h0, upToLastNL, List.count_cons, hc]

theorem submittedLines_flatten (s : List Char) :
    (submittedLines s).flatten = upToLastNL s := by
  have h := splitLinesAux_join s []
  simp only [List.nil_append, List.length_nil, Nat.zero_add] at h
  by_cases h0 : s.count '\n' = 0
  · simp [submittedLines, splitLines, h, h0, upToLastNL_of_no_newline s h0]
  · simp [submittedLines, splitLines, h, h0]

theorem splitLines_length (s : List Char) :
    (splitLines s).length = linesCount s :=
  splitLinesAux_length s s 1

theorem submittedLines_eq_nil_of_no_newline (s : List Char)
    (h : linesCount s = 0) : submittedLines s = [] := by
  have hl : (submittedLines s).length = 0 := by
    simpa [submittedLines, h] using splitLines_length s
  exact List.eq_nil_of_length_eq_zero hl

theorem splitLinesAux_lines_end_newline (cur : List Char) :
    ∀ pre : List Char,
      ∀ l ∈ (splitLinesAux cur (pre ++ cur) (pre.length + 1)).map lineText,
        l ≠ [] ∧ l.getLast? = some '\n' := by
  induction cur with
  | nil => intro pre l hl; simp [splitLinesAux] at hl
  | cons c rest ih =>
    intro pre l hl
    by_cases hc : c = '\n'
    · subst hc
      rw [splitLinesAux, if_pos rfl] at hl
      simp only [List.map_cons, List.mem_cons, lineText_pair,
        take_length_succ_append] at hl
      rcases hl with hl | hl
      · subst hl
        constructor
        · simp
        · exact List.getLast?_concat pre
      · have h0 := ih []
        simp only [List.nil_append, List.length_nil, Nat.zero_add] at h0
        exact h0 l (by simpa using hl)
    · rw [splitLinesAux, if_neg hc] at hl
      have hrw : pre ++ c :: rest = (pre ++ [c]) ++ rest := by simp
      have hlen : pre.length + 1 + 1 = (pre ++ [c]).length + 1 := by simp
      rw [hrw, hlen] at hl
      exact ih (pre ++ [c]) l hl

theorem submittedLines_end_newline (s : List Char) :
    ∀ l ∈ submittedLines s, l ≠ [] ∧ l.getLast? = some '\n' := by
  have h := splitLinesAux_lines_end_newline s []
  simp only [List.nil_append, List.length_nil, Nat.zero_add] at h
  intro l hl
  exact h l (by simpa [submittedLines, splitLines] using hl)

/-! ### createProgram's result values -/

theorem createProgram_of_handleZero (d : Driver) (h : handleZeroFailure d) :
    createProgram d = 2 := by
  rcases h with h1 | ⟨h1, h2⟩ | ⟨h1, h2, h3, h4, h5⟩
  · simp [createProgram, h1]
  · simp [createProgram, h1, h2]
  · simp [createProgram, h1, h2, h3, h4, h5]

theorem createProgram_of_compileFailure (d : Driver) (h : compileFailure d) :
    createProgram d = 5 := by
  rcases h with ⟨h1, h2, h3 | ⟨h3, h4⟩⟩
  · simp [createProgram, h1, h2, h3]
  · simp [createProgram, h1, h2, h3, h4]

theorem createProgram_of_linkFailure (d : Driver) (h : linkFailure d) :
    createProgram d = 2 := by
  obtain ⟨h1, h2, h3, h4, h5, h6⟩ := h
  simp [createProgram, h1, h2, h3, h4, h5, h6]

theorem createProgram_of_success (d : Driver) (h : ¬ buildFailure d) :
    createProgram d = d.programHandle ∧ d.programHandle ≠ 0 := by
  by_cases h1 : d.vsHandle = 0
  · exact absurd (Or.inl (Or.inl h1)) h
  by_cases h2 : d.fsHandle = 0
  · exact absurd (Or.inl (Or.inr (Or.inl ⟨h1, h2⟩))) h
  by_cases h3 : d.vsCompileOk = false
  · exact absurd (Or.inr (Or.inl ⟨h1, h2, Or.inl h3⟩)) h
  have h3t : d.vsCompileOk = true := by revert h3; cases d.vsCompileOk <;> simp
  by_cases h4 : d.fsCompileOk = false
  · exact absurd (Or.inr (Or.inl ⟨h1, h2, Or.inr ⟨h3t, h4⟩⟩)) h
  have h4t : d.fsCompileOk = true := by revert h4; cases d.fsCompileOk <;> simp
  by_cases h5 : d.programHandle = 0
  · exact absurd (Or.inl (Or.inr (Or.inr ⟨h1, h2, h3t, h4t, h5⟩))) h
  by_cases h6 : d.linkOk = false
  · exact absurd (Or.inr (Or.inr ⟨h1, h2, h3t, h4t, h5, h6⟩)) h
  exact ⟨by simp [createProgram, h1, h2, h3, h4, h5, h6], h5⟩

theorem createProgram_of_buildFailure (d : Driver) (h : buildFailure d) :
    createProgram d = 2 ∨ createProgram d = 5 := by
  rcases h with h | h | h
  · exact Or.inl (createProgram_of_handleZero d h)
  · exact Or.inr (createProgram_of_compileFailure d h)
  · exact Or.inl (createProgram_of_linkFailure d h)

/-! ### Frame-loop machinery -/

theorem frameStep_shouldClose (env : Env) (inp : FrameInput) (s : GLState) :
    (frameStep env inp s).shouldClose =
      ((s.shouldClose || inp.escapePressed) || inp.externalClose) := by
  cases he : inp.escapePressed <;>
    simp [frameStep, frameCalls, keyPollCalls, bodyCalls, he, applyCall]

theorem frameStep_clearCol (env : Env) (inp : FrameInput) (s : GLState) :
    (frameStep env inp s).clearCol = s.clearCol := by
  cases he : inp.escapePressed <;>
    simp [frameStep, frameCalls, keyPollCalls, bodyCalls, he, applyCall]

theorem frameStep_fbDrawBuffers (env : Env) (inp : FrameInput) (s : GLState) :
    (frameStep env inp s).fbDrawBuffers = att1 := by
  cases he : inp.escapePressed <;>
    simp [frameStep, frameCalls, keyPollCalls, bodyCalls, he, applyCall]

theorem frameStep_att1Tex (env : Env) (inp : FrameInput) (s : GLState)
    (hfb : env.fb ≠ 0) :
    (frameStep env inp s).att1Tex = fun p =>
      if inQuad passAScale p then some passAColor
      else if DrawBuf.colorAttachment 1 ∈ s.fbDrawBuffers then some s.clearCol
      else s.att1Tex p := by
  have hfb0 : ¬ ((0:Nat) = env.fb) := fun h => hfb h.symm
  cases he : inp.escapePressed <;>
  · simp [frameStep, frameCalls, keyPollCalls, bodyCalls, he, applyCall,
      clearWrites, drawWrites, slotTarget, att1, hfb0]
    funext p
    by_cases hm : DrawBuf.colorAttachment 1 ∈ s.fbDrawBuffers <;> simp [hm]

theorem frameStep_screen (env : Env) (inp : FrameInput) (s : GLState)
    (hfb : env.fb ≠ 0) (hAB : env.progA ≠ env.progB) (htex : env.tex0 ≠ env.tex1)
    (hbb : DrawBuf.backBuffer ∉ s.fbDrawBuffers) :
    (frameStep env inp s).screen = fun p =>
      if inQuad passBScale p then
        (match (if inQuad passAScale p then some passAColor
                else if DrawBuf.colorAttachment 1 ∈ s.fbDrawBuffers then some s.clearCol
                else s.att1Tex p) with
          | some c => some ⟨c.r, c.g, c.b, 1⟩
          | none => none)
      else s.screen p := by
  have hfb0 : ¬ ((0:Nat) = env.fb) := fun h => hfb h.symm
  have hBA : ¬ (env.progB = env.progA) := fun h => hAB h.symm
  have htex2 : ¬ (env.tex1 = env.tex0) := fun h => htex h.symm
  cases he : inp.escapePressed <;>
  · simp [frameStep, frameCalls, keyPollCalls, bodyCalls, he, applyCall,
      clearWrites, drawWrites, slotTarget, att1, sampleUnit0, hfb0, hBA, htex2, hbb]
    funext p
    by_cases hb : inQuad passBScale p = true
    · by_cases ha : inQuad passAScale p = true
      · simp [hb, ha]
      · by_cases hm : DrawBuf.colorAttachment 1 ∈ s.fbDrawBuffers <;> simp [hb, ha, hm]
    · simp [hb]

theorem runFrames_of_shouldClose (env : Env) (s : GLState) (inputs : List FrameInput)
    (h : s.shouldClose = true) : runFrames env s inputs = (s, []) := by
  cases inputs <;> simp [runFrames, h]

theorem runFrames_cons (env : Env) (s : GLState) (inp : FrameInput)
    (rest : List FrameInput) (h : s.shouldClose = false) :
    runFrames env s (inp :: rest) =
      ((runFrames env (frameStep env inp s) rest).1,
        frameCalls env inp ++ (runFrames env (frameStep env inp s) rest).2) := by
  simp [runFrames, h]

theorem runFrames_shouldClose_quiet (env : Env) (inputs : List FrameInput)
    (hq : ∀ i ∈ inputs, quiet i) :
    ∀ s : GLState, (runFrames env s inputs).1.shouldClose = s.shouldClose := by
  induction inputs with
  | nil => intro s; rfl
  | cons i rest ih =>
    intro s
    obtain ⟨he, hx⟩ := hq i (by simp)
    cases hc : s.shouldClose
    · rw [runFrames_cons env s i rest hc]
      rw [ih (fun j hj => hq j (List.mem_cons_of_mem i hj))]
      rw [frameStep_shouldClose, hc, he, hx]
      rfl
    · rw [runFrames_of_shouldClose env s _ hc, hc]

theorem not_mem_runFrames_trace (env : Env) (c : GLCall)
    (h : ∀ inp, c ∉ frameCalls env inp) (inputs : List FrameInput) :
    ∀ s : GLState, c ∉ (runFrames env s inputs).2 := by
  induction inputs with
  | nil => intro s hc; simp [runFrames] at hc
  | cons i rest ih =>
    intro s hc
    by_cases hsc : s.shouldClose = true
    · rw [runFrames_of_shouldClose env s _ hsc] at hc
      simp at hc
    · rw [runFrames_cons env s i rest (by simpa using hsc)] at hc
      rcases List.mem_append.mp hc with hm | hm
      · exact h i hm
      · exact ih _ hm

theorem deleteProgram_not_mem_frameCalls (env : Env) (inp : FrameInput) (p : Nat) :
    GLCall.deleteProgram p ∉ frameCalls env inp := by
  cases he : inp.escapePressed <;> simp [frameCalls, keyPollCalls, bodyCalls, he]

theorem assert_not_mem_frameCalls (env : Env) (inp : FrameInput) :
    GLCall.assertNoGLError ∉ frameCalls env inp := by
  cases he : inp.escapePressed <;> simp [frameCalls, keyPollCalls, bodyCalls, he]

theorem bindTex0_not_mem_frameCalls (env : Env) (inp : FrameInput)
    (h1 : env.tex0 ≠ env.tex1) (h0 : env.tex0 ≠ 0) :
    GLCall.bindTexture env.tex0 ∉ frameCalls env inp := by
  cases he : inp.escapePressed <;>
    simp [frameCalls, keyPollCalls, bodyCalls, he, h1, h0]

theorem count_pollEvents_frameCalls (env : Env) (inp : FrameInput) :
    (frameCalls env inp).count GLCall.pollEvents = 1 := by
  cases he : inp.escapePressed <;>
    simp [frameCalls, keyPollCalls, bodyCalls, he, List.count_cons, List.count_append]

theorem useProgramA_mem_frameCalls (env : Env) (inp : FrameInput) :
    GLCall.useProgram env.progA ∈ frameCalls env inp := by
  cases he : inp.escapePressed <;> simp [frameCalls, keyPollCalls, bodyCalls, he]

theorem steadyInv_frameStep (env : Env) (inp : FrameInput) (s : GLState)
    (hq : quiet inp) (hfb : env.fb ≠ 0) (hAB : env.progA ≠ env.progB)
    (htex : env.tex0 ≠ env.tex1) (hs : steadyInv env s) :
    steadyInv env (frameStep env inp s) := by
  obtain ⟨hsc, hcc, hdb, ha1, hscr⟩ := hs
  obtain ⟨he, hx⟩ := hq
  have hbb : DrawBuf.backBuffer ∉ s.fbDrawBuffers := by rw [hdb]; decide
  refine ⟨?_, ?_, ?_, ?_, ?_⟩
  · rw [frameStep_shouldClose, hsc, he, hx]; rfl
  · rw [frameStep_clearCol, hcc]
  · exact frameStep_fbDrawBuffers env inp s
  · intro p
    rw [frameStep_att1Tex env inp s hfb]
    by_cases hA : inQuad passAScale p = true
    · simp [hA, att1Steady]
    · simp [hA, att1Steady, hdb, hcc, att1]
  · intro p
    rw [frameStep_screen env inp s hfb hAB htex hbb]
    by_cases hb : inQuad passBScale p = true
    · by_cases hA : inQuad passAScale p = true
      · simp [hb, hA, screenSteady, passAColor]
      · simp [hb, hA, screenSteady, hdb, hcc, att1, setupClearColor]
    · simp [hb, hscr p, screenSteady]

theorem steadyInv_after_two (env : Env)
    (hfb : env.fb ≠ 0) (hAB : env.progA ≠ env.progB) (htex : env.tex0 ≠ env.tex1) :
    steadyInv env (frameStep env quietInput (frameStep env quietInput initState)) := by
  have hbb0 : DrawBuf.backBuffer ∉ initState.fbDrawBuffers := by decide
  set s1 := frameStep env quietInput initState with hs1
  have h1sc : s1.shouldClose = false := by
    rw [hs1, frameStep_shouldClose]; decide
  have h1cc : s1.clearCol = setupClearColor := by
    rw [hs1, frameStep_clearCol]; rfl
  have h1db : s1.fbDrawBuffers = att1 := by
    rw [hs1]; exact frameStep_fbDrawBuffers env quietInput initState
  have h1scr : ∀ p, ¬ inQuad passBScale p = true → s1.screen p = none := by
    intro p hb
    rw [hs1, frameStep_screen env quietInput initState hfb hAB htex hbb0]
    simp [hb, initState]
  have hbb1 : DrawBuf.backBuffer ∉ s1.fbDrawBuffers := by rw [h1db]; decide
  refine ⟨?_, ?_, ?_, ?_, ?_⟩
  · rw [frameStep_shouldClose, h1sc]; decide
  · rw [frameStep_clearCol, h1cc]
  · exact frameStep_fbDrawBuffers env quietInput s1
  · intro p
    rw [frameStep_att1Tex env quietInput s1 hfb]
    by_cases hA : inQuad passAScale p = true
    · simp [hA, att1Steady]
    · simp [hA, att1Steady, h1db, h1cc, att1]
  · intro p
    rw [frameStep_screen env quietInput s1 hfb hAB htex hbb1]
    by_cases hb : inQuad passBScale p = true
    · by_cases hA : inQuad passAScale p = true
      · simp [hb, hA, screenSteady, passAColor]
      · simp [hb, hA, screenSteady, h1db, h1cc, att1, setupClearColor]
    · simp [hb, h1scr p (by simpa using hb), screenSteady]

theorem runFrames_steadyInv (env : Env) (hfb : env.fb ≠ 0)
    (hAB : env.progA ≠ env.progB) (htex : env.tex0 ≠ env.tex1) :
    ∀ (n : Nat) (s : GLState), steadyInv env s →
      steadyInv env (runFrames env s (List.replicate n quietInput)).1 := by
  intro n
  induction n with
  | zero => intro s hs; simpa [runFrames] using hs
  | succ m ih =>
    intro s hs
    rw [List.replicate_succ, runFrames_cons env s _ _ hs.1]
    exact ih _ (steadyInv_frameStep env quietInput s ⟨rfl, rfl⟩ hfb hAB htex hs)

theorem runFrames_escape_aux (env : Env) :
    ∀ (k : Nat) (inputs : List FrameInput) (s : GLState),
      s.shouldClose = false →
      ∀ (hk : k < inputs.length),
      (∀ j (hj : j < inputs.length), j < k → quiet (inputs.get ⟨j, hj⟩)) →
      (inputs.get ⟨k, hk⟩).escapePressed = true →
      (runFrames env s inputs).1.shouldClose = true ∧
        (runFrames env s inputs).2.count GLCall.pollEvents = k + 1 := by
  intro k
  induction k with
  | zero =>
    intro inputs s hsc hk hq he
    match inputs, hk with
    | i :: rest, _ =>
      have hi : i.escapePressed = true := he
      rw [runFrames_cons env s i rest hsc]
      have hclose : (frameStep env i s).shouldClose = true := by
        rw [frameStep_shouldClose, hi, hsc]; simp
      rw [runFrames_of_shouldClose env _ rest hclose]
      exact ⟨hclose, by simpa using count_pollEvents_frameCalls env i⟩
  | succ m ih =>
    intro inputs s hsc hk hq he
    match inputs, hk with
    | i :: rest, hk =>
      have hqi : quiet i := hq 0 (by simp) (Nat.succ_pos m)
      rw [runFrames_cons env s i rest hsc]
      have hstep : (frameStep env i s).shouldClose = false := by
        rw [frameStep_shouldClose, hsc, hqi.1, hqi.2]; rfl
      have hk2 : m < rest.length := Nat.lt_of_succ_lt_succ hk
      have hq2 : ∀ j (hj : j < rest.length), j < m → quiet (rest.get ⟨j, hj⟩) := by
        intro j hj hjm
        exact hq (j+1) (Nat.succ_lt_succ hj) (Nat.succ_lt_succ hjm)
      have he2 : (rest.get ⟨m, hk2⟩).escapePressed = true := he
      obtain ⟨ha, hb⟩ := ih rest (frameStep env i s) hstep hk2 hq2 he2
      refine ⟨ha, ?_⟩
      rw [List.count_append, hb, count_pollEvents_frameCalls env i]
      omega

theorem mainRun_success (e : InitEnv) (inputs : List FrameInput)
    (hg : e.glfwInitOk = true) (hw : e.windowOk = true) (hge : e.glewInitOk = true)
    (hclose : (runFrames (loopEnv e) initState inputs).1.shouldClose = true) :
    mainRun e inputs =
      some (0, GLCall.assertNoGLError :: (runFrames (loopEnv e) initState inputs).2 ++
        shutdownCalls (createProgram e.drvA)) := by
  simp [mainRun, hg, hw, hge, hclose]

/-! ### Claim theorems -/

/-- Claim C2 (corrected): for every source with N newline characters the
splitter records exactly N line entries, and concatenating the recorded
entries (respecting each recorded length) reconstructs the prefix of the
source up to and including its last newline — hence the whole original text
exactly when no characters follow the last newline (in particular for all
four embedded shader sources, which end in a newline). -/
theorem compileShader_line_split (s : List Char) :
    (splitLines s).length = linesCount s ∧
    (submittedLines s).flatten = upToLastNL s ∧
    (afterLastNL s = [] → (submittedLines s).flatten = s) := by
  refine ⟨splitLines_length s, submittedLines_flatten s, ?_⟩
  intro h
  have h2 := upToLastNL_append_afterLastNL s
  rw [h, List.append_nil] at h2
  rw [submittedLines_flatten s, h2]

/-- Witness for C2 at the newline-terminated source "ab\n". -/
theorem compileShader_line_split_witness :
    afterLastNL srcTerminated = [] ∧
      (splitLines srcTerminated).length = linesCount srcTerminated ∧
      (submittedLines srcTerminated).flatten = srcTerminated :=
  ⟨by decide, (compileShader_line_split srcTerminated).1,
    (compileShader_line_split srcTerminated).2.2 (by decide)⟩

/-- Counterexample to C2 as frozen: for the source "ab\ncd" the entry count
is right (one newline, one entry) but the concatenation of the recorded
entries is "ab\n", not the original text — bytes after the last newline are
dropped. -/
theorem compileShader_line_split_counterexample :
    (splitLines srcTrailing).length = linesCount srcTrailing ∧
    (submittedLines srcTrailing).flatten ≠ srcTrailing := by decide

/-- Claim C9 (confirmed): `compileShader` submits exactly the prefix of the
source up to and including the last newline: every recorded line is nonempty
and ends with its terminating newline (the recorded length counts it), the
concatenation of the submitted lines is that prefix, the remainder after the
last newline contains no newline and is never part of any submitted line,
and a source with no newline (in particular a non-empty one) is submitted as
zero lines. -/
theorem compileShader_submission_bounds (s : List Char) :
    (submittedLines s).flatten = upToLastNL s ∧
    upToLastNL s ++ afterLastNL s = s ∧
    (afterLastNL s).count '\n' = 0 ∧
    (∀ l ∈ submittedLines s, l ≠ [] ∧ l.getLast? = some '\n') ∧
    (linesCount s = 0 → submittedLines s = []) :=
  ⟨submittedLines_flatten s, upToLastNL_append_afterLastNL s, afterLastNL_count s,
    submittedLines_end_newline s, submittedLines_eq_nil_of_no_newline s⟩

/-- Witness for C9 at the non-empty newline-free source "x". -/
theorem compileShader_submission_bounds_witness :
    linesCount srcNoNewline = 0 ∧
      (submittedLines srcNoNewline).flatten = upToLastNL srcNoNewline ∧
      submittedLines srcNoNewline = [] :=
  ⟨by decide, (compileShader_submission_bounds srcNoNewline).1,
    (compileShader_submission_bounds srcNoNewline).2.2.2.2 (by decide)⟩

/-- Claim C5 (corrected): a zero shader or program handle is a fatal
construction error with result 2; that result is distinct from the
compile-failure result 5 but identical to the link-failure result 2. -/
theorem zero_handle_failure_result (d : Driver) :
    (handleZeroFailure d → createProgram d = 2) ∧
    (compileFailure d → createProgram d = 5) ∧
    (linkFailure d → createProgram d = 2) ∧
    (2 : Nat) ≠ 5 :=
  ⟨createProgram_of_handleZero d, createProgram_of_compileFailure d,
    createProgram_of_linkFailure d, by decide⟩

/-- Witness for C5 at a driver whose `glCreateProgram` returns 0. -/
theorem zero_handle_failure_result_witness :
    handleZeroFailure zeroProgDriver ∧ createProgram zeroProgDriver = 2 :=
  ⟨by decide, (zero_handle_failure_result zeroProgDriver).1 (by decide)⟩

/-- Counterexample to C5 as frozen: the zero-program-handle failure result
equals the link-failure result (both are 2), so the zero-handle result is not
distinct from both other failure results. -/
theorem zero_handle_counterexample :
    handleZeroFailure zeroProgDriver ∧ linkFailure linkFailDriver ∧
    createProgram zeroProgDriver = 2 ∧ createProgram linkFailDriver = 2 ∧
    createProgram zeroProgDriver = createProgram linkFailDriver := by decide

/-- Claim C10 (confirmed): every failure path of `createProgram` returns the
in-band constant 2 or 5 (never 0); on success it returns the driver's nonzero
program handle; a successful build whose handle happens to be 5 is therefore
indistinguishable from a compile failure; and `main` hands whatever value was
returned to `glUseProgram` in every loop iteration without any check. -/
theorem createProgram_inband_failures (d : Driver) :
    (buildFailure d → createProgram d = 2 ∨ createProgram d = 5) ∧
    (¬ buildFailure d → createProgram d = d.programHandle ∧ d.programHandle ≠ 0) ∧
    (createProgram compileFailDriver = 5 ∧ buildFailure compileFailDriver) ∧
    (createProgram ambiguousOkDriver = 5 ∧ ¬ buildFailure ambiguousOkDriver) ∧
    (∀ (e : InitEnv) (inp : FrameInput) (rest : List FrameInput),
      GLCall.useProgram (createProgram e.drvA) ∈
        (runFrames (loopEnv e) initState (inp :: rest)).2) := by
  refine ⟨createProgram_of_buildFailure d, createProgram_of_success d,
    ⟨by decide, by decide⟩, ⟨by decide, by decide⟩, ?_⟩
  intro e inp rest
  rw [runFrames_cons (loopEnv e) initState inp rest rfl]
  exact List.mem_append_left _ (useProgramA_mem_frameCalls (loopEnv e) inp)

/-- Witness for C10 at a compile-failing driver. -/
theorem createProgram_inband_failures_witness :
    buildFailure compileFailDriver ∧
      (createProgram compileFailDriver = 2 ∨ createProgram compileFailDriver = 5) :=
  ⟨by decide, (createProgram_inband_failures compileFailDriver).1 (by decide)⟩

/-- Claim C4 (corrected): one invocation of the error helper pops and
describes at most one pending error (the oldest), leaving the rest of the
queue; it is invoked exactly once, by the assertion between setup and the
loop, and never from inside the frame loop. -/
theorem error_helper_behavior (e : Nat) (rest : List Nat)
    (he : e ≠ GL_NO_ERROR) :
    (error (e :: rest)).2 = rest ∧
    (error (e :: rest)).1 = true ∧
    (getErrorMessage (e :: rest)).1 =
      "OpenGL error: " ++ toString e ++ "\n" ++ "Error string: " ++
        getErrorDescr e ++ "\n" ∧
    error [] = (false, []) ∧
    (∀ (env : Env) (inp : FrameInput), GLCall.assertNoGLError ∉ frameCalls env inp) ∧
    (∀ (ev : InitEnv) (inputs : List FrameInput),
      ev.glfwInitOk = true → ev.windowOk = true → ev.glewInitOk = true →
      (runFrames (loopEnv ev) initState inputs).1.shouldClose = true →
      mainRun ev inputs = some (0, GLCall.assertNoGLError ::
        (runFrames (loopEnv ev) initState inputs).2 ++
          shutdownCalls (createProgram ev.drvA)) ∧
      (GLCall.assertNoGLError :: (runFrames (loopEnv ev) initState inputs).2 ++
          shutdownCalls (createProgram ev.drvA)).count GLCall.assertNoGLError = 1) := by
  refine ⟨?_, ?_, ?_, by decide, assert_not_mem_frameCalls, ?_⟩
  · simp [error, getErrorMessage, glGetError, he]
  · simp only [error, getErrorMessage, glGetError, he, ite_false, if_neg he]
    simp [String.length_append]
    exact Or.inl (by decide)
  · simp [getErrorMessage, glGetError, he]
  · intro ev inputs hg hw hge hclose
    refine ⟨mainRun_success ev inputs hg hw hge hclose, ?_⟩
    have hz : (runFrames (loopEnv ev) initState inputs).2.count
        GLCall.assertNoGLError = 0 :=
      List.count_eq_zero.mpr
        (not_mem_runFrames_trace (loopEnv ev) GLCall.assertNoGLError
          (fun inp => assert_not_mem_frameCalls (loopEnv ev) inp) inputs initState)
    simp [List.count_cons, List.count_append, hz, shutdownCalls]

/-- Witness for C4 at a queue holding two pending errors. -/
theorem error_helper_behavior_witness :
    GL_INVALID_ENUM ≠ GL_NO_ERROR ∧
      (error [GL_INVALID_ENUM, GL_INVALID_VALUE]).2 = [GL_INVALID_VALUE] :=
  ⟨by decide, (error_helper_behavior GL_INVALID_ENUM [GL_INVALID_VALUE] (by decide)).1⟩

/-- Counterexample to C4 as frozen: with two pending errors, one invocation
of the helper leaves one error still queued — it does not drain the entire
queue nor describe every pending error. -/
theorem error_helper_counterexample :
    (error [GL_INVALID_ENUM, GL_INVALID_VALUE]).2 = [GL_INVALID_VALUE] ∧
    [GL_INVALID_VALUE] ≠ ([] : List Nat) := by decide

/-- Claim C3 (corrected): process exit codes are 0 (clean shutdown),
1 (window creation failed), 2 (glew initialization failed), 3 (glfw
initialization failed), and nothing else; 5 is only `createProgram`'s in-band
return value for a compile failure — a shader compile failure does not make
the process exit with code 5 (main ignores the returned value and a
subsequent clean shutdown still exits 0). -/
theorem process_exit_codes (e : InitEnv) (inputs : List FrameInput) :
    (e.glfwInitOk = false →
      mainRun e inputs = some (3, [GLCall.printErr "Error: glfw init failed."])) ∧
    (e.glfwInitOk = true → e.windowOk = false →
      mainRun e inputs =
        some (1, [GLCall.printErr "Error: window is null.", GLCall.terminate])) ∧
    (e.glfwInitOk = true → e.windowOk = true → e.glewInitOk = false →
      mainRun e inputs =
        some (2, [GLCall.printErr "Error: glew not OK.", GLCall.terminate])) ∧
    (e.glfwInitOk = true → e.windowOk = true → e.glewInitOk = true →
      (runFrames (loopEnv e) initState inputs).1.shouldClose = true →
      (mainRun e inputs).map Prod.fst = some 0) ∧
    (∀ r, mainRun e inputs = some r → r.1 = 0 ∨ r.1 = 1 ∨ r.1 = 2 ∨ r.1 = 3) ∧
    (compileFailure e.drvA → createProgram e.drvA = 5) := by
  refine ⟨?_, ?_, ?_, ?_, ?_, createProgram_of_compileFailure e.drvA⟩
  · intro h; simp [mainRun, h]
  · intro hg hw; simp [mainRun, hg, hw]
  · intro hg hw hge; simp [mainRun, hg, hw, hge]
  · intro hg hw hge hclose
    rw [mainRun_success e inputs hg hw hge hclose]
    rfl
  · intro r hr
    simp only [mainRun] at hr
    split_ifs at hr with h1 h2 h3 h4 <;>
      first
        | (simp only [Option.some_inj] at hr; subst hr; simp)
        | simp at hr

/-- Witness for C3: a glfw-init failure exits 3. -/
theorem process_exit_codes_witness :
    (⟨false, true, true, okDriver, okDriverB, 3, 1, 2⟩ : InitEnv).glfwInitOk = false ∧
      mainRun ⟨false, true, true, okDriver, okDriverB, 3, 1, 2⟩ [] =
        some (3, [GLCall.printErr "Error: glfw init failed."]) :=
  ⟨rfl, (process_exit_codes ⟨false, true, true, okDriver, okDriverB, 3, 1, 2⟩ []).1 rfl⟩

/-- Counterexample to C3 as frozen: a run whose program-A vertex shader fails
to compile, followed by an escape press, exits with code 0, not 5 — the
process never exits with code 5. -/
theorem process_exit_codes_counterexample :
    compileFailure compileFailEnv.drvA ∧
    (mainRun compileFailEnv [escInput]).map Prod.fst = some 0 := by decide

/-- Claim C8 (confirmed): when the loop exits via the close condition (and
setup succeeded), the process prints the completion notice, deletes program A
(and only program A — program B's handle is never passed to
`glDeleteProgram` when the two handles differ), clears the current context,
destroys the window, terminates glfw, and exits with code 0. -/
theorem shutdown_sequence (e : InitEnv) (inputs : List FrameInput)
    (hg : e.glfwInitOk = true) (hw : e.windowOk = true) (hge : e.glewInitOk = true)
    (hclose : (runFrames (loopEnv e) initState inputs).1.shouldClose = true) :
    mainRun e inputs =
      some (0, GLCall.assertNoGLError :: (runFrames (loopEnv e) initState inputs).2 ++
        [GLCall.printOut "Finishing...", GLCall.deleteProgram (createProgram e.drvA),
          GLCall.makeContextCurrentNull, GLCall.destroyWindow, GLCall.terminate]) ∧
    (createProgram e.drvA ≠ createProgram e.drvB →
      GLCall.deleteProgram (createProgram e.drvB) ∉
        (GLCall.assertNoGLError :: (runFrames (loopEnv e) initState inputs).2 ++
          [GLCall.printOut "Finishing...", GLCall.deleteProgram (createProgram e.drvA),
            GLCall.makeContextCurrentNull, GLCall.destroyWindow, GLCall.terminate])) := by
  constructor
  · rw [mainRun_success e inputs hg hw hge hclose]
    rfl
  · intro hne hmem
    rcases List.mem_cons.mp hmem with h | h
    · exact absurd h (by simp)
    rcases List.mem_append.mp h with h | h
    · exact not_mem_runFrames_trace (loopEnv e) _
        (fun inp => deleteProgram_not_mem_frameCalls (loopEnv e) inp _)
        inputs initState h
    · simp only [List.mem_cons, List.not_mem_nil] at h
      rcases h with h | h | h | h | h <;> simp_all

/-- Witness for C8: a healthy environment closed by an escape press runs the
complete shutdown sequence, and program B's handle is never deleted. -/
theorem shutdown_sequence_witness :
    GLCall.deleteProgram (createProgram okEnv.drvB) ∉
      (GLCall.assertNoGLError :: (runFrames (loopEnv okEnv) initState [escInput]).2 ++
        [GLCall.printOut "Finishing...", GLCall.deleteProgram (createProgram okEnv.drvA),
          GLCall.makeContextCurrentNull, GLCall.destroyWindow, GLCall.terminate]) :=
  (shutdown_sequence okEnv [escInput] rfl rfl rfl (by decide)).2 (by decide)

/-- Claim C7 (confirmed): if the first k iterations observe no input and the
escape key is down at iteration k's key poll, then that poll issues the
close request, the loop's final state has the close flag set, and exactly
k + 1 loop bodies execute in total — the body is never executed again after
the iteration that saw the key (each body performs exactly one
`glfwPollEvents`, so bodies are counted by `pollEvents` calls). -/
theorem escape_terminates_loop (env : Env) (k : Nat) (inputs : List FrameInput)
    (hk : k < inputs.length)
    (hq : ∀ j (hj : j < inputs.length), j < k → quiet (inputs.get ⟨j, hj⟩))
    (he : (inputs.get ⟨k, hk⟩).escapePressed = true) :
    keyPollCalls (inputs.get ⟨k, hk⟩) = [GLCall.setWindowShouldClose] ∧
    (runFrames env initState inputs).1.shouldClose = true ∧
    (runFrames env initState inputs).2.count GLCall.pollEvents = k + 1 := by
  obtain ⟨h1, h2⟩ := runFrames_escape_aux env k inputs initState rfl hk hq he
  exact ⟨by simp only [keyPollCalls, he, ite_true], h1, h2⟩

/-- Witness for C7: pressing escape in the first iteration closes the loop
after exactly one body. -/
theorem escape_terminates_loop_witness :
    (runFrames (loopEnv okEnv) initState [escInput]).1.shouldClose = true ∧
      (runFrames (loopEnv okEnv) initState [escInput]).2.count GLCall.pollEvents = 1 :=
  ⟨(escape_terminates_loop (loopEnv okEnv) 0 [escInput] (by decide)
      (fun j hj hlt => absurd hlt (Nat.not_lt_zero j)) (by decide)).2.1,
    (escape_terminates_loop (loopEnv okEnv) 0 [escInput] (by decide)
      (fun j hj hlt => absurd hlt (Nat.not_lt_zero j)) (by decide)).2.2⟩

/-- Claim C6 (confirmed): every executed loop iteration, right after its key
poll, performs in order: bind the offscreen framebuffer as draw target, clear
its color buffer, activate program A, set the draw-buffer mask `att1` (slot 0
disabled with GL_NONE, slot 1 directed to color attachment 1), then issue a
6-vertex draw. -/
theorem passA_iteration_calls (env : Env) (inp : FrameInput) (s : GLState)
    (rest : List FrameInput) (h : s.shouldClose = false) :
    (runFrames env s (inp :: rest)).2 =
      frameCalls env inp ++ (runFrames env (frameStep env inp s) rest).2 ∧
    frameCalls env inp = keyPollCalls inp ++ bodyCalls env ∧
    (bodyCalls env).take 5 =
      [GLCall.bindFramebuffer env.fb, GLCall.clear, GLCall.useProgram env.progA,
        GLCall.drawBuffers att1, GLCall.drawArrays 6] ∧
    att1 = [DrawBuf.glNone, DrawBuf.colorAttachment 1] := by
  refine ⟨?_, rfl, rfl, rfl⟩
  rw [runFrames_cons env s inp rest h]

/-- Witness for C6 at the first iteration of a healthy run. -/
theorem passA_iteration_calls_witness :
    (runFrames (loopEnv okEnv) initState [quietInput]).2 =
      frameCalls (loopEnv okEnv) quietInput ++
        (runFrames (loopEnv okEnv) (frameStep (loopEnv okEnv) quietInput initState) []).2 ∧
    frameCalls (loopEnv okEnv) quietInput =
      keyPollCalls quietInput ++ bodyCalls (loopEnv okEnv) ∧
    (bodyCalls (loopEnv okEnv)).take 5 =
      [GLCall.bindFramebuffer (loopEnv okEnv).fb, GLCall.clear,
        GLCall.useProgram (loopEnv okEnv).progA,
        GLCall.drawBuffers att1, GLCall.drawArrays 6] ∧
    att1 = [DrawBuf.glNone, DrawBuf.colorAttachment 1] :=
  passA_iteration_calls (loopEnv okEnv) quietInput initState [] rfl

/-- Claim C1 (corrected): running any number of frames with no key input and
no close request leaves the close flag false, and attachment 0 is never read
(no pass ever binds its texture for sampling).  From the second frame on the
attachment-1 image shows exactly two colors, not one: the pass-A fragment
color (opaque blue) on the half-scale quad and the pass-A clear color (opaque
black, not blue) elsewhere; the screen image pass B derives from attachment 1
shows the same two colors inside the viewport quad. -/
theorem quiet_frames_render (env : Env) (N : Nat)
    (hfb : env.fb ≠ 0) (hAB : env.progA ≠ env.progB)
    (htex : env.tex0 ≠ env.tex1) (htex0 : env.tex0 ≠ 0) :
    (runFrames env initState (List.replicate N quietInput)).1.shouldClose = false ∧
    GLCall.bindTexture env.tex0 ∉
      (runFrames env initState (List.replicate N quietInput)).2 ∧
    (2 ≤ N →
      (∀ p, (runFrames env initState (List.replicate N quietInput)).1.att1Tex p =
        att1Steady p) ∧
      (∀ p, (runFrames env initState (List.replicate N quietInput)).1.att1Tex p =
          some passAColor ∨
        (runFrames env initState (List.replicate N quietInput)).1.att1Tex p =
          some setupClearColor) ∧
      (runFrames env initState (List.replicate N quietInput)).1.att1Tex (0, 0) =
        some passAColor ∧
      (runFrames env initState (List.replicate N quietInput)).1.att1Tex
        sampleOutsidePoint = some setupClearColor ∧
      passAColor ≠ setupClearColor ∧
      (∀ p, (runFrames env initState (List.replicate N quietInput)).1.screen p =
        screenSteady p)) := by
  refine ⟨?_, ?_, ?_⟩
  · rw [runFrames_shouldClose_quiet env _ ?_ initState]
    · rfl
    · intro i hi
      rw [List.eq_of_mem_replicate hi]
      exact ⟨rfl, rfl⟩
  · exact not_mem_runFrames_trace env _
      (fun inp => bindTex0_not_mem_frameCalls env inp htex htex0) _ initState
  · intro hN
    obtain ⟨k, rfl⟩ : ∃ k, N = k + 2 := ⟨N - 2, by omega⟩
    have h0 : initState.shouldClose = false := rfl
    have h1 : (frameStep env quietInput initState).shouldClose = false := by
      rw [frameStep_shouldClose]; rfl
    have hrw : (runFrames env initState (List.replicate (k + 2) quietInput)).1 =
        (runFrames env
          (frameStep env quietInput (frameStep env quietInput initState))
          (List.replicate k quietInput)).1 := by
      rw [List.replicate_succ, runFrames_cons env initState _ _ h0,
        List.replicate_succ, runFrames_cons env _ _ _ h1]
    have hst : steadyInv env
        (runFrames env initState (List.replicate (k + 2) quietInput)).1 := by
      rw [hrw]
      exact runFrames_steadyInv env hfb hAB htex k _
        (steadyInv_after_two env hfb hAB htex)
    obtain ⟨-, -, -, ha1, hscr⟩ := hst
    refine ⟨ha1, ?_, ?_, ?_, by decide, hscr⟩
    · intro p
      rw [ha1 p]
      by_cases hA : inQuad passAScale p = true
      · exact Or.inl (by simp [att1Steady, hA])
      · exact Or.inr (by simp [att1Steady, hA])
    · rw [ha1 (0, 0)]; decide
    · rw [ha1 sampleOutsidePoint]; decide

/-- Witness for C1 at a healthy two-frame run. -/
theorem quiet_frames_render_witness :
    (runFrames (loopEnv okEnv) initState (List.replicate 2 quietInput)).1.shouldClose
        = false ∧
    GLCall.bindTexture (loopEnv okEnv).tex0 ∉
      (runFrames (loopEnv okEnv) initState (List.replicate 2 quietInput)).2 ∧
    (2 ≤ 2 →
      (∀ p, (runFrames (loopEnv okEnv) initState
          (List.replicate 2 quietInput)).1.att1Tex p = att1Steady p) ∧
      (∀ p, (runFrames (loopEnv okEnv) initState
            (List.replicate 2 quietInput)).1.att1Tex p = some passAColor ∨
        (runFrames (loopEnv okEnv) initState
            (List.replicate 2 quietInput)).1.att1Tex p = some setupClearColor) ∧
      (runFrames (loopEnv okEnv) initState
          (List.replicate 2 quietInput)).1.att1Tex (0, 0) = some passAColor ∧
      (runFrames (loopEnv okEnv) initState
          (List.replicate 2 quietInput)).1.att1Tex sampleOutsidePoint =
        some setupClearColor ∧
      passAColor ≠ setupClearColor ∧
      (∀ p, (runFrames (loopEnv okEnv) initState
          (List.replicate 2 quietInput)).1.screen p = screenSteady p)) :=
  quiet_frames_render (loopEnv okEnv) 2 (by decide) (by decide) (by decide) (by decide)

/-- Counterexample to C1 as frozen: after two no-input frames the
attachment-1 image holds two distinct colors — opaque blue inside the
half-scale quad and the clear color outside it — and the clear color is
opaque black (blue component 0), not "fully blue". -/
theorem quiet_frames_render_counterexample :
    (runFrames (loopEnv okEnv) initState
        (List.replicate 2 quietInput)).1.att1Tex (0, 0) = some passAColor ∧
    (runFrames (loopEnv okEnv) initState
        (List.replicate 2 quietInput)).1.att1Tex sampleOutsidePoint =
      some setupClearColor ∧
    passAColor ≠ setupClearColor ∧
    setupClearColor.b = 0 ∧ setupClearColor.a = 1 := by decide

end GLDemo
